import Mathlib

/-!
Verification of the generate-execute-verify-repair agent loop in `agent.py`
(class `ParserGenerator`, dataclass `AgentState`, and the CLI entry `main`).

The embedding below translates the control flow of the source into total
Lean functions.  External effects are made explicit:

* The LLM call inside `generate_parser_code` / `fix_parser_code` either
  returns text or raises; this is `LLMResult`.
* Loading the candidate module and calling its `parse` entry point inside
  the tester method (`agent.py` lines 152-189) either raises while loading
  the module (`loadError`), raises an `AttributeError` because the module
  has no `parse` attribute (`noParseAttr`), raises inside `parse`
  (`parseRaises`), or returns a DataFrame (`returns`).  All four are the
  constructors of `ExecOutcome`.
* Reading the expected CSV inside the tester is an `Except String Table`.
* A pandas DataFrame is modelled as a `Table`: an ordered list of column
  names and a list of rows of typed cell values.  `DataFrame.equals`
  requires identical labels, dtypes and values, with NaN equal to NaN at
  the same position; on this model that is exactly decidable equality of
  `Table` (dtype is carried by the `Value` constructor, NaN by
  `Value.null`).

The loop itself (`run_agent_loop`, `agent.py` lines 231-266) is run with
fuel `max_attempts + 1 - attempt`, which is an exact bound on the number
of iterations of the Python `while` loop; at fuel 0 the loop guard is
false, so the fuelled function and the source loop agree.  The per-attempt
external nondeterminism (what the LLM answers, what executing the
candidate source does) is supplied by an `Env` of oracles indexed by the
attempt number; every concrete run of the Python program corresponds to
one such `Env`.  The second component returned by the loop counts how
many times the analysis phase (`analyze_pdf_structure` followed by
`analyze_csv_schema`, lines 240-244) ran.
-/

namespace AgentChallenge

/-- A single cell value of a table, with an explicit null (NaN)
representation.  The constructor plays the role of the pandas dtype. -/
inductive Value where
  | str (s : String)
  | int (n : Int)
  | null
deriving DecidableEq, Repr

/-- A tabular result: ordered column names plus rows of cells.  This is the
comparison-relevant content of a pandas DataFrame. -/
structure Table where
  columns : List String
  rows : List (List Value)
deriving DecidableEq, Repr

/-- `DataFrame.shape`: (number of rows, number of columns). -/
def Table.shape (t : Table) : Nat × Nat :=
  (t.rows.length, t.columns.length)

/-- A table is well-formed when every row has one cell per column. -/
def Table.wellFormed (t : Table) : Bool :=
  t.rows.all (fun r => r.length = t.columns.length)

/-- What loading the candidate source and invoking its entry point does:
the module fails to load, the module loads but has no `parse` attribute,
`parse` raises, or `parse` returns a table.  Each failing constructor
carries `str(e)` of the raised exception. -/
inductive ExecOutcome where
  | loadError (msg : String)
  | noParseAttr (msg : String)
  | parseRaises (msg : String)
  | returns (t : Table)
deriving DecidableEq, Repr

/-- The dict returned by the tester method of `ParserGenerator`
(`agent.py` lines 177-189).  The non-exception path returns the keys
`success`, `result_shape`, `expected_shape`, `columns_match`,
`data_match`; the exception path returns the keys `success` (false) and
`error`. -/
inductive TestResult where
  | compared (success : Bool) (result_shape expected_shape : Nat × Nat)
      (columns_match data_match : Bool)
  | errored (error : String)
deriving DecidableEq, Repr

/-- `test_result.get("success", False)` as used by the loop (line 258). -/
def TestResult.success : TestResult → Bool
  | .compared s _ _ _ _ => s
  | .errored _ => false

/-- The tester method of `ParserGenerator` (`agent.py` lines 152-189).
It writes the candidate source to a temporary file, loads it as a module,
calls `parse`, reads the expected CSV, compares with `DataFrame.equals`,
removes the temporary file, and returns the result dict; any exception is
caught and turned into the `errored` dict.  The second component records
whether the `os.remove(parser_file)` on line 175 was reached. -/
def testParser (outcome : ExecOutcome) (csvRead : Except String Table) :
    TestResult × Bool :=
  match outcome with
  | .loadError e => (.errored e, false)
  | .noParseAttr e => (.errored e, false)
  | .parseRaises e => (.errored e, false)
  | .returns t =>
    match csvRead with
    | .error e => (.errored e, false)
    | .ok expected =>
      (.compared (decide (t = expected)) t.shape expected.shape
        (decide (t.columns = expected.columns)) (decide (t = expected)), true)

/-- Outcome of one call to the external text-generation capability. -/
inductive LLMResult where
  | ok (text : String)
  | raises (msg : String)
deriving DecidableEq, Repr

/-- The fixed tail of the fallback string built on `agent.py` line 150. -/
def placeholderTail : String :=
  "\n\n# Placeholder parser code\nimport pandas as pd\n\ndef parse(pdf_path: str) -> pd.DataFrame:\n    return pd.DataFrame()"

/-- `ParserGenerator.generate_parser_code` (`agent.py` lines 115-150).
The prompt built from `pdf_content`, `csv_schema` and `bank_name` only
shapes the LLM answer, which is supplied as `llm`; on an exception the
method returns the comment-plus-placeholder string of line 150. -/
def generate_parser_code (pdf_content csv_schema bank_name : String)
    (llm : LLMResult) : String :=
  match llm with
  | .ok text => text
  | .raises e => "# Error generating code: " ++ e ++ placeholderTail

/-- `ParserGenerator.fix_parser_code` (`agent.py` lines 191-229).  The
repair prompt embeds the previous candidate, the previous diagnostic and
the summaries; on an exception the method returns the previous candidate
unchanged (line 229). -/
def fix_parser_code (parser_code : String) (test_results : TestResult)
    (pdf_content csv_schema : String) (llm : LLMResult) : String :=
  match llm with
  | .ok text => text
  | .raises _ => parser_code

/-- The dataclass `AgentState` (`agent.py` lines 44-55), with its field
defaults. -/
structure AgentState where
  target_bank : String
  pdf_path : String
  csv_path : String
  attempt : Nat := 1
  max_attempts : Nat := 3
  parser_code : String := ""
  test_results : List TestResult := []
  errors : List String := []
  success : Bool := false
deriving DecidableEq, Repr

/-- The state `main` builds on `agent.py` lines 314-318: only the three
strings are passed, every other field keeps its dataclass default.  The
budget is a parameter so that statements can quantify over it; `main`
itself always leaves it at the default 3. -/
def initState (target pdf csv : String) (budget : Nat) : AgentState :=
  { target_bank := target, pdf_path := pdf, csv_path := csv,
    attempt := 1, max_attempts := budget, parser_code := "",
    test_results := [], errors := [], success := false }

/-- External world of one run: the LLM answer and the behaviour of the
candidate source, indexed by the attempt number, plus the static inputs.
`csvRead` is the expected-table read inside the tester; `pdf_content` and
`csv_schema` stand for the values returned by `analyze_pdf_structure` and
`analyze_csv_schema`, which are deterministic in the unchanged paths. -/
structure Env where
  gen : Nat → LLMResult
  exec : Nat → String → ExecOutcome
  csvRead : Except String Table
  pdf_content : String
  csv_schema : String
  bank : String

/-- The candidate source produced in step 2 of an iteration (`agent.py`
lines 248-251): fresh generation on attempt 1, repair generation (fed the
last appended diagnostic, `state.test_results[-1]`) afterwards.  On the
repair path the history is never empty in any reachable state, so the
`getLastD` default is never consulted. -/
def attempt_code (env : Env) (s : AgentState) : String :=
  if s.attempt = 1 then
    generate_parser_code env.pdf_content env.csv_schema env.bank
      (env.gen s.attempt)
  else
    fix_parser_code s.parser_code (s.test_results.getLastD (.errored ("")))
      env.pdf_content env.csv_schema (env.gen s.attempt)

/-- The diagnostic of the current iteration (`agent.py` line 255). -/
def attempt_result (env : Env) (s : AgentState) : TestResult :=
  (testParser (env.exec s.attempt (attempt_code env s)) env.csvRead).1

/-- State after an iteration whose diagnostic succeeded (`agent.py` lines
249-259): the candidate and its diagnostic are stored and the success flag
is raised; the attempt counter is not touched because the `break` on line
261 skips the increment. -/
def stop_state (env : Env) (s : AgentState) : AgentState :=
  { s with parser_code := attempt_code env s,
           test_results := s.test_results ++ [attempt_result env s],
           success := true }

/-- State after an iteration whose diagnostic failed (`agent.py` lines
249-264): the candidate and its diagnostic are stored and the attempt
counter is incremented by the `state.attempt += 1` on line 264. -/
def step_state (env : Env) (s : AgentState) : AgentState :=
  { s with parser_code := attempt_code env s,
           test_results := s.test_results ++ [attempt_result env s],
           attempt := s.attempt + 1 }

theorem step_state_attempt (env : Env) (s : AgentState) :
    (step_state env s).attempt = s.attempt + 1 := rfl

theorem step_state_max (env : Env) (s : AgentState) :
    (step_state env s).max_attempts = s.max_attempts := rfl

theorem step_state_success (env : Env) (s : AgentState) :
    (step_state env s).success = s.success := rfl

theorem step_state_results (env : Env) (s : AgentState) :
    (step_state env s).test_results =
      s.test_results ++ [attempt_result env s] := rfl

/-- One-for-one transcription of the `while` loop of
`ParserGenerator.run_agent_loop` (`agent.py` lines 236-264), with fuel
bounding the number of iterations.  Each iteration first runs the analysis
phase (counted in the second component), then synthesizes a candidate,
tests it, appends the diagnostic; on success it sets the flag and breaks,
otherwise it increments the attempt counter and loops. -/
def run_agent_loop_aux (env : Env) :
    Nat → AgentState → Nat → AgentState × Nat
  | 0, s, acalls => (s, acalls)
  | fuel + 1, s, acalls =>
    if s.attempt ≤ s.max_attempts ∧ s.success = false then
      if (attempt_result env s).success = true then
        (stop_state env s, acalls + 1)
      else
        run_agent_loop_aux env fuel (step_state env s) (acalls + 1)
    else (s, acalls)

/-- `ParserGenerator.run_agent_loop` (`agent.py` lines 231-266): returns
the final state and the number of analysis phases that ran.  The fuel
`max_attempts + 1 - attempt` is exact: the loop guard fails precisely when
the fuel would reach 0. -/
def run_agent_loop (env : Env) (s : AgentState) : AgentState × Nat :=
  run_agent_loop_aux env (s.max_attempts + 1 - s.attempt) s 0

/-- Number of failure diagnostics in a history. -/
def failCount (l : List TestResult) : Nat :=
  (l.filter (fun r => !r.success)).length

/-- Observable outcome of the CLI entry `main` (`agent.py` lines
281-361): the process exit status, whether `run_agent_loop` was invoked,
and the final state when it was. -/
structure MainOutcome where
  exit_code : Nat
  loop_invoked : Bool
  final : Option AgentState
deriving DecidableEq, Repr

/-- `main` (`agent.py` lines 281-361): validate that the document path
exists (after the `.txt` fallback, folded into `pdf_exists`), validate the
CSV path, construct the `ParserGenerator` (whose `_setup_llm` calls
`sys.exit(1)` when no usable provider/API key is configured, folded into
`provider_ok`), build the state, run the loop, and exit 0 on success and
1 otherwise.  No validation of the retry budget occurs anywhere. -/
def mainModel (env : Env) (pdf_exists csv_exists provider_ok : Bool)
    (target pdf csv : String) (budget : Nat) : MainOutcome :=
  if pdf_exists = false then ⟨1, false, none⟩
  else if csv_exists = false then ⟨1, false, none⟩
  else if provider_ok = false then ⟨1, false, none⟩
  else
    let fin := (run_agent_loop env (initState target pdf csv budget)).1
    if fin.success = true then ⟨0, true, some fin⟩ else ⟨1, true, some fin⟩

/-- The fixed failure-kind taxonomy of a verification diagnostic. -/
inductive SpecDiag where
  | execution_error (msg : String)
  | shape_mismatch (produced expected : Nat × Nat)
  | schema_mismatch (produced expected : List String)
  | data_mismatch
  | ok
deriving DecidableEq, Repr

/-- Follows the words of the specification, not the source: the Verifier
policy of spec section 4.4, applied in order with short-circuit on the
first mismatch, each kind carrying exactly the detail the spec names
(execution failure first, then shape with both shapes, then column lists,
then cell-by-cell equality); section 7 records a missing entry point as
`execution_error`.  Kept separate so it can be compared with the
source-derived `testParser`. -/
def specVerify (outcome : ExecOutcome) (expected : Table) : SpecDiag :=
  match outcome with
  | .loadError e => .execution_error e
  | .noParseAttr e => .execution_error e
  | .parseRaises e => .execution_error e
  | .returns t =>
    if t.shape = expected.shape then
      if t.columns = expected.columns then
        if t = expected then .ok else .data_mismatch
      else .schema_mismatch t.columns expected.columns
    else .shape_mismatch t.shape expected.shape

/-- A small concrete expected table. -/
def expSmall : Table := ⟨[("A" : String)], [[.int 1]]⟩

/-- Same columns as `expSmall` but one extra row: shape mismatch only. -/
def prodTall : Table := ⟨[("A" : String)], [[.int 1], [.int 2]]⟩

/-- Same extra row and a renamed column: shape and schema mismatch. -/
def prodTallZ : Table := ⟨[("Z" : String)], [[.int 1], [.int 2]]⟩

/-- An environment in which every attempt fails at execution time. -/
def envAllFail : Env :=
  ⟨fun _ => .ok ("candidate source"), fun _ _ => .parseRaises ("boom"),
    .ok expSmall, "PDF TEXT", "SCHEMA", "icici"⟩

/-- An environment in which every attempt reproduces the expected table. -/
def envOk : Env :=
  ⟨fun _ => .ok ("candidate source"), fun _ _ => .returns expSmall,
    .ok expSmall, "PDF TEXT", "SCHEMA", "icici"⟩

/-- The loop appends at most one diagnostic per unit of fuel. -/
theorem aux_len_le (env : Env) (fuel : Nat) : ∀ (s : AgentState) (c : Nat),
    (run_agent_loop_aux env fuel s c).1.test_results.length ≤
      s.test_results.length + fuel := by
  induction fuel with
  | zero => intro s c; simp [run_agent_loop_aux]
  | succ n ih =>
    intro s c
    simp only [run_agent_loop_aux]
    split_ifs with h1 h2
    · simp only [stop_state, List.length_append, List.length_cons,
        List.length_nil]
      omega
    · refine le_trans (ih _ _) ?_
      simp only [step_state, List.length_append, List.length_cons,
        List.length_nil]
      omega
    · exact Nat.le_add_right _ _

/-- The loop never removes diagnostics from the history. -/
theorem aux_len_mono (env : Env) (fuel : Nat) : ∀ (s : AgentState) (c : Nat),
    s.test_results.length ≤
      (run_agent_loop_aux env fuel s c).1.test_results.length := by
  induction fuel with
  | zero => intro s c; simp [run_agent_loop_aux]
  | succ n ih =>
    intro s c
    simp only [run_agent_loop_aux]
    split_ifs with h1 h2
    · simp only [stop_state, List.length_append, List.length_cons,
        List.length_nil]
      omega
    · refine le_trans ?_ (ih _ _)
      simp only [step_state, List.length_append, List.length_cons,
        List.length_nil]
      omega
    · exact Nat.le_refl _

/-- Each iteration runs the analysis phase exactly once and appends exactly
one diagnostic, so the two counters move in lockstep. -/
theorem aux_acalls (env : Env) (fuel : Nat) : ∀ (s : AgentState) (c : Nat),
    (run_agent_loop_aux env fuel s c).2 + s.test_results.length =
      c + (run_agent_loop_aux env fuel s c).1.test_results.length := by
  induction fuel with
  | zero => intro s c; simp [run_agent_loop_aux]
  | succ n ih =>
    intro s c
    simp only [run_agent_loop_aux]
    split_ifs with h1 h2
    · simp only [stop_state, List.length_append, List.length_cons,
        List.length_nil]
      omega
    · have h := ih (step_state env s) (c + 1)
      simp only [step_state_results, List.length_append, List.length_cons,
        List.length_nil] at h
      omega
    · rfl

/-- The attempt counter always reads one more than the number of failure
diagnostics recorded so far: it only moves on a failed attempt. -/
theorem aux_attempt_failCount (env : Env) (fuel : Nat) :
    ∀ (s : AgentState) (c : Nat),
      s.attempt = 1 + failCount s.test_results →
      (run_agent_loop_aux env fuel s c).1.attempt =
        1 + failCount (run_agent_loop_aux env fuel s c).1.test_results := by
  induction fuel with
  | zero => intro s c h; simpa [run_agent_loop_aux] using h
  | succ n ih =>
    intro s c h
    simp only [run_agent_loop_aux]
    split_ifs with h1 h2
    · simpa [stop_state, failCount, List.filter_append, h2] using h
    · have h2f : (attempt_result env s).success = false := by
        cases hsf : (attempt_result env s).success
        · rfl
        · exact absurd hsf h2
      refine ih _ _ ?_
      simp only [failCount] at h
      simp [step_state, failCount, List.filter_append, h2f, h]
      omega
    · exact h

/-- The attempt counter never exceeds budget + 1, and on a successful run
it never exceeds the budget itself (success breaks before the increment). -/
theorem aux_attempt_le (env : Env) (fuel : Nat) : ∀ (s : AgentState) (c : Nat),
    s.attempt ≤ s.max_attempts + 1 →
    (s.success = true → s.attempt ≤ s.max_attempts) →
    (run_agent_loop_aux env fuel s c).1.attempt ≤ s.max_attempts + 1 ∧
      ((run_agent_loop_aux env fuel s c).1.success = true →
        (run_agent_loop_aux env fuel s c).1.attempt ≤ s.max_attempts) := by
  induction fuel with
  | zero => intro s c hle hsu; simpa [run_agent_loop_aux] using ⟨hle, hsu⟩
  | succ n ih =>
    intro s c hle hsu
    simp only [run_agent_loop_aux]
    split_ifs with h1 h2
    · refine ⟨?_, fun _ => ?_⟩ <;> simp only [stop_state]
      · omega
      · exact h1.1
    · have h := ih (step_state env s) (c + 1)
        (by simp only [step_state]; omega)
        (by simp [step_state, h1.2])
      simpa only [step_state] using h
    · exact ⟨hle, hsu⟩

/-- When every execution of a candidate yields a failing diagnostic, the
loop consumes its whole budget: the flag stays false and exactly
`min fuel (budget + 1 - attempt)` further iterations run, each appending
one diagnostic, advancing the attempt counter and re-running the analysis
phase. -/
theorem aux_allfail (env : Env)
    (H : ∀ n code, (testParser (env.exec n code) env.csvRead).1.success = false)
    (fuel : Nat) : ∀ (s : AgentState) (c : Nat), s.success = false →
    (run_agent_loop_aux env fuel s c).1.success = false ∧
    (run_agent_loop_aux env fuel s c).1.test_results.length =
      s.test_results.length + min fuel (s.max_attempts + 1 - s.attempt) ∧
    (run_agent_loop_aux env fuel s c).1.attempt =
      s.attempt + min fuel (s.max_attempts + 1 - s.attempt) ∧
    (run_agent_loop_aux env fuel s c).2 =
      c + min fuel (s.max_attempts + 1 - s.attempt) := by
  induction fuel with
  | zero =>
    intro s c hs
    refine ⟨hs, ?_, ?_, ?_⟩ <;> simp [run_agent_loop_aux]
  | succ n ih =>
    intro s c hs
    have hf : (attempt_result env s).success = false :=
      H s.attempt (attempt_code env s)
    simp only [run_agent_loop_aux]
    split_ifs with h1 h2
    · exact absurd h2 (by simp [hf])
    · have h := ih (step_state env s) (c + 1)
        (by rw [step_state_success]; exact hs)
      simp only [step_state_results, step_state_attempt, step_state_max,
        List.length_append, List.length_cons, List.length_nil] at h
      obtain ⟨ha, hb, hc, hd⟩ := h
      have h1a : s.attempt ≤ s.max_attempts := h1.1
      exact ⟨ha, by omega, by omega, by omega⟩
    · have h1a : ¬ s.attempt ≤ s.max_attempts := fun hle => h1 ⟨hle, hs⟩
      have hmin : min (n + 1) (s.max_attempts + 1 - s.attempt) = 0 := by
        omega
      refine ⟨hs, ?_, ?_, ?_⟩ <;> simp [hmin]

/-- Invariant tying the success flag to the history: while the flag is
down every recorded diagnostic is a failure, and once it is up the history
is a block of failures followed by one success. -/
def goodHist (s : AgentState) : Prop :=
  (s.success = false → ∀ r ∈ s.test_results, r.success = false) ∧
  (s.success = true → ∃ pre l, s.test_results = pre ++ [l] ∧
    l.success = true ∧ ∀ r ∈ pre, r.success = false)

/-- Every iteration of the loop preserves `goodHist`. -/
theorem aux_goodHist (env : Env) (fuel : Nat) : ∀ (s : AgentState) (c : Nat),
    goodHist s → goodHist (run_agent_loop_aux env fuel s c).1 := by
  induction fuel with
  | zero => intro s c h; simpa [run_agent_loop_aux] using h
  | succ n ih =>
    intro s c h
    simp only [run_agent_loop_aux]
    split_ifs with h1 h2
    · refine ⟨fun hfalse => by simp [stop_state] at hfalse, fun _ => ?_⟩
      exact ⟨s.test_results, attempt_result env s, rfl, h2, h.1 h1.2⟩
    · refine ih _ _ ⟨fun _ r hr => ?_, fun htrue => ?_⟩
      · simp only [step_state, List.mem_append, List.mem_singleton] at hr
        rcases hr with hr | hr
        · exact h.1 h1.2 r hr
        · subst hr
          cases hsf : (attempt_result env s).success
          · rfl
          · exact absurd hsf h2
      · rw [show (step_state env s).success = s.success from rfl, h1.2] at htrue
        exact absurd htrue (by simp)
    · exact h

/-- With fuel left, a live state (guard true) completes at least one more
attempt, so the history strictly grows. -/
theorem aux_len_ge_one (env : Env) (fuel : Nat) (s : AgentState) (c : Nat)
    (hf : 1 ≤ fuel) (h1 : s.attempt ≤ s.max_attempts) (h2 : s.success = false) :
    1 + s.test_results.length ≤
      (run_agent_loop_aux env fuel s c).1.test_results.length := by
  cases fuel with
  | zero => omega
  | succ n =>
    simp only [run_agent_loop_aux]
    split_ifs with hg hs
    · simp only [stop_state, List.length_append, List.length_cons,
        List.length_nil]
      omega
    · refine le_trans ?_ (aux_len_mono env n _ _)
      simp only [step_state, List.length_append, List.length_cons,
        List.length_nil]
      omega
    · exact absurd ⟨h1, h2⟩ hg

theorem initState_attempt (t p c : String) (B : Nat) :
    (initState t p c B).attempt = 1 := rfl

theorem initState_max (t p c : String) (B : Nat) :
    (initState t p c B).max_attempts = B := rfl

theorem initState_results (t p c : String) (B : Nat) :
    (initState t p c B).test_results = [] := rfl

theorem initState_success (t p c : String) (B : Nat) :
    (initState t p c B).success = false := rfl

/-- From the initial state the loop runs with fuel equal to the budget. -/
theorem run_eq_aux (env : Env) (t p c : String) (B : Nat) :
    run_agent_loop env (initState t p c B) =
      run_agent_loop_aux env B (initState t p c B) 0 := rfl

/-- C1: for every retry budget B ≥ 1, `run_agent_loop` performs at most B
synthesize/execute/verify iterations, the diagnostic history
`state.test_results` never grows beyond length B, and if the diagnostic
of every attempt reports failure the loop stops as a terminal failure (success
flag still false) with the history length equal to exactly B. -/
theorem claim_C1 (env : Env) (t p c : String) (B : Nat) (hB : 1 ≤ B) :
    (run_agent_loop env (initState t p c B)).1.test_results.length ≤ B ∧
    (run_agent_loop env (initState t p c B)).2 ≤ B ∧
    ((∀ n code,
        (testParser (env.exec n code) env.csvRead).1.success = false) →
      (run_agent_loop env (initState t p c B)).1.success = false ∧
      (run_agent_loop env (initState t p c B)).1.test_results.length = B) := by
  rw [run_eq_aux]
  refine ⟨?_, ?_, fun H => ?_⟩
  · have h := aux_len_le env B (initState t p c B) 0
    simpa only [initState_results, List.length_nil, Nat.zero_add] using h
  · have h := aux_acalls env B (initState t p c B) 0
    have h2 := aux_len_le env B (initState t p c B) 0
    simp only [initState_results, List.length_nil, Nat.zero_add] at h h2
    omega
  · have h := aux_allfail env H B (initState t p c B) 0 rfl
    obtain ⟨ha, hb, -, -⟩ := h
    refine ⟨ha, ?_⟩
    simp only [initState_results, initState_max, initState_attempt,
      List.length_nil] at hb
    omega

/-- C1 witness: a concrete run with budget 1 in which the only attempt
fails at execution time. -/
theorem claim_C1_witness :
    1 ≤ 1 ∧
    ((run_agent_loop envAllFail (initState ("b") ("p") ("c") 1)).1.success =
        false ∧
      (run_agent_loop envAllFail
          (initState ("b") ("p") ("c") 1)).1.test_results.length = 1) :=
  ⟨Nat.le_refl 1,
    (claim_C1 envAllFail ("b") ("p") ("c") 1 (Nat.le_refl 1)).2.2
      (fun _ _ => rfl)⟩

/-- C2 counterexample: two produced tables with the same (mismatching)
shape but different column names.  Under the short-circuit
policy of the specification both runs yield the identical `shape_mismatch` diagnostic carrying
only the two shapes; the source tester nevertheless returns different
diagnostics, because it computes and records the column-name comparison
(and the equality verdict) even though the shapes already disagree, and
no failure-kind field exists in its result at all. -/
theorem claim_C2_counterexample :
    prodTall.shape = prodTallZ.shape ∧
    prodTall.shape ≠ expSmall.shape ∧
    specVerify (.returns prodTall) expSmall =
      specVerify (.returns prodTallZ) expSmall ∧
    (testParser (.returns prodTall) (.ok expSmall)).1 ≠
      (testParser (.returns prodTallZ) (.ok expSmall)).1 := by
  refine ⟨rfl, by decide, rfl, by decide⟩

/-- C2 amended: only execution failure short-circuits (an exception yields
a diagnostic carrying just the error text and a false success flag); on
the non-exception path the verifier computes every field unconditionally —
the whole-table equality verdict, both shapes, and the order- and
case-sensitive column-name comparison — with no failure-kind field and no
ordering among the shape/schema/data checks, and its success flag is true
exactly when the produced table equals the expected one (exact equality,
no tolerance, no coercion). -/
theorem claim_C2_amended (t e : Table) (m : String)
    (r : Except String Table) :
    (testParser (.returns t) (.ok e)).1 =
      .compared (decide (t = e)) t.shape e.shape
        (decide (t.columns = e.columns)) (decide (t = e)) ∧
    ((testParser (.returns t) (.ok e)).1.success = true ↔ t = e) ∧
    (testParser (.loadError m) r).1 = .errored m ∧
    (testParser (.parseRaises m) r).1 = .errored m := by
  refine ⟨rfl, ?_, rfl, rfl⟩
  simp [testParser, TestResult.success]

/-- C3 counterexample: a budget-2 run in which both attempts fail performs
the analysis phase twice, not once — `analyze_pdf_structure` and
`analyze_csv_schema` are called inside the `while` loop (`agent.py` lines
240-244), so they are re-invoked on the retry iteration. -/
theorem claim_C3_counterexample :
    (run_agent_loop envAllFail (initState ("icici") ("doc.pdf") ("exp.csv") 2)).2
        = 2 ∧
    ¬ (run_agent_loop envAllFail
        (initState ("icici") ("doc.pdf") ("exp.csv") 2)).2 = 1 := by
  refine ⟨by decide, by decide⟩

/-- C3 amended: the content/schema analysis runs once per attempt — the
number of analysis phases performed equals the number of completed
attempts (the diagnostic history length), not one per run; the analyzers
are deterministic in the unchanged input paths, so every attempt receives
an identical summary, but no caching occurs. -/
theorem claim_C3_amended (env : Env) (t p c : String) (B : Nat) :
    (run_agent_loop env (initState t p c B)).2 =
      (run_agent_loop env (initState t p c B)).1.test_results.length := by
  rw [run_eq_aux]
  have h := aux_acalls env B (initState t p c B) 0
  simp only [initState_results, List.length_nil] at h
  omega

/-- C4 counterexample: when the text-generation capability raises, repair
generation returns the previous candidate source verbatim — two different
previous candidates yield two different results, so the returned text is
not a deterministic placeholder and in general not a functionally empty
extraction routine. -/
theorem claim_C4_counterexample :
    fix_parser_code ("df = extract_full_table()") (.errored ("shape"))
        ("P") ("S") (.raises ("quota exceeded")) =
      "df = extract_full_table()" ∧
    fix_parser_code ("other candidate") (.errored ("shape"))
        ("P") ("S") (.raises ("quota exceeded")) = "other candidate" ∧
    ("df = extract_full_table()" : String) ≠ "other candidate" := by
  refine ⟨rfl, rfl, by decide⟩

/-- C4 amended: neither synthesis operation raises to the caller.  When
the capability raises, initial generation returns the fixed placeholder
candidate (an error comment followed by a syntactically valid `parse`
returning an empty DataFrame), while repair generation returns the
previous candidate source unchanged; either way the loop proceeds to
execution and verification and the attempt is consumed — with a raising
generator and failing executions, a budget-B run still records exactly B
diagnostics. -/
theorem claim_C4_amended :
    (∀ pc cs bk e, generate_parser_code pc cs bk (.raises e) =
      "# Error generating code: " ++ e ++ placeholderTail) ∧
    (∀ code tr pc cs e, fix_parser_code code tr pc cs (.raises e) = code) ∧
    (∀ e msg r pc cs bk t p c B,
      (run_agent_loop ⟨fun _ => .raises e, fun _ _ => .parseRaises msg,
          r, pc, cs, bk⟩ (initState t p c B)).1.test_results.length = B) := by
  refine ⟨fun pc cs bk e => rfl, fun code tr pc cs e => rfl, ?_⟩
  intro e msg r pc cs bk t p c B
  rw [run_eq_aux]
  have h := aux_allfail ⟨fun _ => .raises e, fun _ _ => .parseRaises msg,
    r, pc, cs, bk⟩ (fun _ _ => rfl) B (initState t p c B) 0 rfl
  obtain ⟨-, hb, -, -⟩ := h
  simp only [initState_results, initState_max, initState_attempt,
    List.length_nil] at hb
  omega

/-- C5 counterexample: a candidate with no `parse` attribute and a
candidate whose `parse` raises an exception with the same text produce
literally identical diagnostics — both flow through the single generic
`except` clause of the tester into the same `success = False` / `error`
dict, so the missing entry point is not reported as a distinct failure
kind.  (In the source both are reachable: `str(e)` of the
`AttributeError` equals `str(e)` of a runtime exception raised with the
same message.) -/
theorem claim_C5_counterexample :
    testParser (.noParseAttr ("exception text")) (.ok expSmall) =
      testParser (.parseRaises ("exception text")) (.ok expSmall) ∧
    (testParser (.noParseAttr ("exception text")) (.ok expSmall)).1 =
      .errored ("exception text") := ⟨rfl, rfl⟩

/-- C5 amended: the tester never propagates a load-time or
runtime error of a candidate — every failing path is captured into a returned diagnostic
whose success flag is false and which carries only the exception text —
but a candidate missing the `parse` entry point is reported in exactly the
same generic form as an arbitrary runtime error, distinguishable only by
the error message, not by a structured failure kind; on the non-exception
path the success flag is the exact-equality verdict. -/
theorem claim_C5_amended (m : String) (r : Except String Table)
    (t e : Table) :
    (testParser (.loadError m) r).1 = .errored m ∧
    (testParser (.noParseAttr m) r).1 = .errored m ∧
    (testParser (.parseRaises m) r).1 = .errored m ∧
    testParser (.noParseAttr m) r = testParser (.parseRaises m) r ∧
    (testParser (.loadError m) r).1.success = false ∧
    (testParser (.returns t) (.ok e)).1.success = decide (t = e) :=
  ⟨rfl, rfl, rfl, rfl, rfl, rfl⟩

/-- C6 counterexample: with budget 1 and a failing attempt, the attempt
counter ends at 2, exceeding the retry budget after the loop terminates
(`state.attempt += 1` runs even on the final failed attempt). -/
theorem claim_C6_counterexample :
    (run_agent_loop envAllFail
        (initState ("icici") ("doc.pdf") ("exp.csv") 1)).1.attempt = 2 ∧
    ¬ (run_agent_loop envAllFail
        (initState ("icici") ("doc.pdf") ("exp.csv") 1)).1.attempt ≤
      (initState ("icici") ("doc.pdf") ("exp.csv") 1).max_attempts := by
  refine ⟨by decide, by decide⟩

/-- C6 amended: the attempt number starts at 1 and increments by exactly 1
after each failed attempt (it reads one more than the number of failure
diagnostics recorded), so it never exceeds B + 1; it stays within the
budget B whenever the run ends in success (the `break` skips the
increment), but after exhausting the budget with failures it ends at
B + 1. -/
theorem claim_C6_amended (env : Env) (t p c : String) (B : Nat)
    (hB : 1 ≤ B) :
    (run_agent_loop env (initState t p c B)).1.attempt =
      1 + failCount (run_agent_loop env (initState t p c B)).1.test_results ∧
    (run_agent_loop env (initState t p c B)).1.attempt ≤ B + 1 ∧
    ((run_agent_loop env (initState t p c B)).1.success = true →
      (run_agent_loop env (initState t p c B)).1.attempt ≤ B) := by
  rw [run_eq_aux]
  refine ⟨?_, ?_, ?_⟩
  · exact aux_attempt_failCount env B (initState t p c B) 0
      (by simp [initState_attempt, initState_results, failCount])
  · have h := aux_attempt_le env B (initState t p c B) 0
      (by simp only [initState_attempt, initState_max]; omega)
      (by simp [initState_success])
    simpa only [initState_max] using h.1
  · have h := aux_attempt_le env B (initState t p c B) 0
      (by simp only [initState_attempt, initState_max]; omega)
      (by simp [initState_success])
    simpa only [initState_max] using h.2

/-- C6 witness: the amended statement at a concrete failing budget-1
run. -/
theorem claim_C6_witness :
    1 ≤ 1 ∧
    ((run_agent_loop envAllFail (initState ("w") ("p") ("c") 1)).1.attempt =
        1 + failCount (run_agent_loop envAllFail
          (initState ("w") ("p") ("c") 1)).1.test_results ∧
      (run_agent_loop envAllFail (initState ("w") ("p") ("c") 1)).1.attempt ≤
        1 + 1 ∧
      ((run_agent_loop envAllFail (initState ("w") ("p") ("c") 1)).1.success =
          true →
        (run_agent_loop envAllFail (initState ("w") ("p") ("c") 1)).1.attempt ≤
          1)) :=
  ⟨Nat.le_refl 1, claim_C6_amended envAllFail ("w") ("p") ("c") 1
    (Nat.le_refl 1)⟩

/-- C7: after a run with budget B ≥ 1 the history is non-empty, the
success flag equals the success flag of the most recently appended
diagnostic, and every diagnostic before the last reports failure — so the
first success stops the loop and no further attempt occurs. -/
theorem claim_C7 (env : Env) (t p c : String) (B : Nat) (hB : 1 ≤ B) :
    (run_agent_loop env (initState t p c B)).1.test_results ≠ [] ∧
    (∀ r, (run_agent_loop env
        (initState t p c B)).1.test_results.getLast? = some r →
      (run_agent_loop env (initState t p c B)).1.success = r.success) ∧
    (∀ r ∈ (run_agent_loop env
        (initState t p c B)).1.test_results.dropLast,
      r.success = false) := by
  rw [run_eq_aux]
  have hlen := aux_len_ge_one env B (initState t p c B) 0 hB
    (by simp only [initState_attempt, initState_max]; omega) rfl
  simp only [initState_results, List.length_nil] at hlen
  have hg := aux_goodHist env B (initState t p c B) 0
    ⟨fun _ r hr => absurd hr (List.not_mem_nil r),
      fun ht => absurd ht (by simp [initState])⟩
  refine ⟨?_, ?_, ?_⟩
  · intro hnil
    rw [hnil] at hlen
    simp at hlen
  · intro r hr
    cases hsuc : (run_agent_loop_aux env B (initState t p c B) 0).1.success with
    | false =>
      have hall := hg.1 hsuc
      exact (hall r (List.mem_of_getLast?_eq_some hr)).symm
    | true =>
      obtain ⟨pre, l, heq, hl, -⟩ := hg.2 hsuc
      rw [heq, List.getLast?_concat] at hr
      cases hr
      exact hl.symm
  · intro r hr
    cases hsuc : (run_agent_loop_aux env B (initState t p c B) 0).1.success with
    | false =>
      exact hg.1 hsuc r (List.dropLast_subset _ hr)
    | true =>
      obtain ⟨pre, l, heq, -, hpre⟩ := hg.2 hsuc
      rw [heq, List.dropLast_concat] at hr
      exact hpre r hr

/-- C7 witness: a concrete budget-1 run that succeeds on its first
attempt. -/
theorem claim_C7_witness :
    1 ≤ 1 ∧
    ((run_agent_loop envOk (initState ("b") ("p") ("c") 1)).1.test_results ≠
        [] ∧
      (∀ r, (run_agent_loop envOk
          (initState ("b") ("p") ("c") 1)).1.test_results.getLast? = some r →
        (run_agent_loop envOk (initState ("b") ("p") ("c") 1)).1.success =
          r.success) ∧
      (∀ r ∈ (run_agent_loop envOk
          (initState ("b") ("p") ("c") 1)).1.test_results.dropLast,
        r.success = false)) :=
  ⟨Nat.le_refl 1, claim_C7 envOk ("b") ("p") ("c") 1 (Nat.le_refl 1)⟩

/-- C8 counterexample: a non-positive retry budget does not abort the run
before the agent loop starts — with readable inputs and a configured
provider, `main` invokes the loop unconditionally (there is no budget
validation anywhere); the loop merely performs zero attempts and the run
exits non-zero with the state unchanged. -/
theorem claim_C8_counterexample :
    (mainModel envAllFail true true true ("icici") ("doc.pdf") ("exp.csv")
        0).loop_invoked = true ∧
    (mainModel envAllFail true true true ("icici") ("doc.pdf") ("exp.csv")
        0).exit_code = 1 ∧
    (mainModel envAllFail true true true ("icici") ("doc.pdf") ("exp.csv")
        0).final = some (initState ("icici") ("doc.pdf") ("exp.csv") 0) := by
  refine ⟨rfl, rfl, rfl⟩

/-- C8 amended: an unreadable document locator, an unreadable
expected-table locator, and a failed provider setup are each fatal before
the loop — exit status 1, loop never invoked, no attempts consumed.  The
retry budget is never validated (`main` always leaves the dataclass
default 3): a non-positive budget still reaches the loop, which performs
zero attempts, and the run exits non-zero; and once the loop has started
no failed attempt raises or terminates the run — with every attempt
failing, `main` still returns the completed final state with exit
status 1. -/
theorem claim_C8_amended (env : Env) (ce po : Bool) (t p c : String)
    (B : Nat) :
    mainModel env false ce po t p c B = ⟨1, false, none⟩ ∧
    mainModel env true false po t p c B = ⟨1, false, none⟩ ∧
    mainModel env true true false t p c B = ⟨1, false, none⟩ ∧
    mainModel env true true true t p c 0 =
      ⟨1, true, some (initState t p c 0)⟩ ∧
    ((∀ n code,
        (testParser (env.exec n code) env.csvRead).1.success = false) →
      mainModel env true true true t p c B =
        ⟨1, true, some (run_agent_loop env (initState t p c B)).1⟩) := by
  refine ⟨rfl, rfl, rfl, rfl, fun H => ?_⟩
  have h := (aux_allfail env H B (initState t p c B) 0 rfl).1
  simp [mainModel, run_eq_aux, h]

/-- C8 witness: the all-attempts-fail conjunct at a concrete budget-3
run. -/
theorem claim_C8_witness :
    mainModel envAllFail true true true ("b") ("p") ("c") 3 =
      ⟨1, true, some (run_agent_loop envAllFail
        (initState ("b") ("p") ("c") 3)).1⟩ :=
  (claim_C8_amended envAllFail true true ("b") ("p") ("c") 3).2.2.2.2
    (fun _ _ => rfl)

/-- C9: the equality check of the verifier is reflexive — verifying any
well-formed table against itself reports success (same labels, same
dtypes, null cells equal to themselves under `DataFrame.equals`), and the
full diagnostic records matching shapes and columns. -/
theorem claim_C9 (t : Table) (h : t.wellFormed = true) :
    testParser (.returns t) (.ok t) =
      (.compared true t.shape t.shape true true, true) := by
  simp [testParser]

/-- C9 witness: reflexive verification of a concrete well-formed table. -/
theorem claim_C9_witness :
    expSmall.wellFormed = true ∧
    testParser (.returns expSmall) (.ok expSmall) =
      (.compared true expSmall.shape expSmall.shape true true, true) :=
  ⟨by decide, claim_C9 expSmall (by decide)⟩

/-- C10: whenever loading the candidate module or calling its `parse`
entry point raises, the temporary file written at the start of the tester
is not removed — the `os.remove` on line 175 runs only on the
non-exception path (where it runs even if the comparison fails), so a
failed attempt of this kind leaves the temporary file of the candidate
behind. -/
theorem claim_C10 (m : String) (r : Except String Table) (t e : Table) :
    (testParser (.loadError m) r).2 = false ∧
    (testParser (.noParseAttr m) r).2 = false ∧
    (testParser (.parseRaises m) r).2 = false ∧
    (testParser (.returns t) (.ok e)).2 = true :=
  ⟨rfl, rfl, rfl, rfl⟩

end AgentChallenge
